import Mathlib

/-!
Shallow embedding of `src/parse_abo_metadata.py`: a batch script that reads
per-product JSON metadata files, extracts text fields, filters by existence
of a derived image file, and writes the surviving records to a CSV table.

JSON values are modelled by an inductive `Json` (numbers as integers — no
claim involves numeric fields).  Python exceptions are modelled by
`Except String`; the filesystem and OS effects the script touches are
collected in a `Sys` record.  The run is a fold over the directory listing
that accumulates rows written, diagnostics printed, and an optional fatal
(uncaught) exception; once the fatal field is set the fold passes the state
through unchanged, so rows written before an abort are preserved, as in the
real program.
-/

namespace ABO

/-- JSON values as produced by `json.load` (numbers modelled as integers). -/
inductive Json : Type where
  | null : Json
  | bool : Bool → Json
  | num : Int → Json
  | str : String → Json
  | arr : List Json → Json
  | obj : List (String × Json) → Json
deriving Repr

/-- Python `str.endswith`. -/
def pyEndsWith (s post : String) : Bool :=
  post.data.isSuffixOf s.data

/-- Python `str.startswith`. -/
def pyStartsWith (s pre : String) : Bool :=
  pre.data.isPrefixOf s.data

/-- Python `dict.get(key, default)` on the field list of a JSON object. -/
def dictGet (fields : List (String × Json)) (key : String) (dflt : Json) : Json :=
  match fields.find? (fun p => p.1 == key) with
  | some p => p.2
  | none => dflt

/-- Python `dict` lookup without a default (`key in d` view): the value at
`key` when present. -/
def dictFind (fields : List (String × Json)) (key : String) : Option Json :=
  (fields.find? (fun p => p.1 == key)).map (fun p => p.2)

/-- Attribute-style `.get(key, default)` on an arbitrary Python value: only
dicts have a `.get` method; any other receiver raises `AttributeError`. -/
def pyGet (v : Json) (key : String) (dflt : Json) : Except String Json :=
  match v with
  | .obj fields => .ok (dictGet fields key dflt)
  | _ => .error "AttributeError"

/-- `extract_text_field` from `parse_abo_metadata.py`:

    def extract_text_field(field):
        if isinstance(field, list) and len(field) > 0:
            return field[0].get("value", "")
        return ""

The `field[0].get` call raises when the first element is not a dict. -/
def extract_text_field (field : Json) : Except String Json :=
  match field with
  | .arr (x :: _) => pyGet x "value" (.str "")
  | _ => .ok (.str "")

def METADATA_DIR : String := "../data/abo/abo-listings"

def IMAGE_DIR : String := "../data/abo/abo-images-small"

def OUTPUT_DIR : String := "../data/products.csv"

/-- `os.path.join` for POSIX paths, in the cases the script exercises:
an absolute second component discards the first; otherwise a single `/`
separates the components (none doubled). -/
def os_path_join (a b : String) : String :=
  if pyStartsWith b "/" then b
  else if a = "" then b
  else if pyEndsWith a "/" then a ++ b
  else a ++ "/" ++ b

/-- A single-quote character, for Python `repr` of strings. -/
def squote : String := String.singleton (Char.ofNat 39)

mutual
/-- Python `repr()` of a JSON value (string escaping omitted). -/
def pyRepr : Json → String
  | .null => "None"
  | .bool true => "True"
  | .bool false => "False"
  | .num n => toString n
  | .str s => squote ++ s ++ squote
  | .arr xs => "[" ++ String.intercalate ", " (pyReprList xs) ++ "]"
  | .obj fs => "\x7b" ++ String.intercalate ", " (pyReprFields fs) ++ "\x7d"

def pyReprList : List Json → List String
  | [] => []
  | x :: xs => pyRepr x :: pyReprList xs

def pyReprFields : List (String × Json) → List String
  | [] => []
  | (k, v) :: fs => (squote ++ k ++ squote ++ ": " ++ pyRepr v) :: pyReprFields fs
end

/-- Python `str()` of a JSON value, as applied by f-string interpolation and
by the csv writer to non-string cell values. -/
def pyStr : Json → String
  | .str s => s
  | v => pyRepr v

/-- One output record: the four fields passed to `writer.writerow`. -/
structure Row where
  product_id : Json
  title : Json
  description : Json
  image_path : String
deriving Repr

/-- The body of the per-document `try` block after `json.load` succeeded:
field extraction, image-path derivation, and the existence filter.
`.ok (some r)` means row `r` is written, `.ok none` means the document is
silently filtered out, `.error e` means an exception was raised (to be
caught by the per-document handler). -/
def processDoc (pathExists : String → Bool) (data : Json) : Except String (Option Row) :=
  match pyGet data "item_id" (.str "") with
  | .error e => .error e
  | .ok product_id =>
    match pyGet data "item_name" (.arr []) with
    | .error e => .error e
    | .ok item_name_field =>
      match extract_text_field item_name_field with
      | .error e => .error e
      | .ok title =>
        match pyGet data "bullet_point" (.arr []) with
        | .error e => .error e
        | .ok bullet_field =>
          match extract_text_field bullet_field with
          | .error e => .error e
          | .ok description =>
            match pyGet data "main_image_id" (.str "") with
            | .error e => .error e
            | .ok image_id =>
              let image_path := os_path_join IMAGE_DIR (pyStr image_id ++ ".jpg")
              if pathExists image_path then
                .ok (some ⟨product_id, title, description, image_path⟩)
              else
                .ok none

/-- The image path the script derives for a parsed document:
`os.path.join(IMAGE_DIR, f"<main_image_id>.jpg")`, where `main_image_id`
defaults to the empty string.  Raises when `data` is not a dict. -/
def derivedImagePath (data : Json) : Except String String :=
  match pyGet data "main_image_id" (.str "") with
  | .error e => .error e
  | .ok image_id => .ok (os_path_join IMAGE_DIR (pyStr image_id ++ ".jpg"))

/-- Outcome of `open(filepath)` followed by `json.load(f_in)` on one metadata
file.  `ioError` is raised by `open` itself, which sits outside the `try`
block; `badJson` is raised by `json.load`, inside it. -/
inductive FileContent : Type where
  | ioError : String → FileContent
  | badJson : String → FileContent
  | json : Json → FileContent
deriving Repr

/-- The ambient filesystem and OS effects the script touches, each modelled
as the outcome the corresponding call would have during this run. -/
structure Sys where
  makedirs : Except String Unit
  openOutput : Except String Unit
  listdir : Except String (List String)
  openFile : String → FileContent
  pathExists : String → Bool

/-- The diagnostic `print(f"Failed to process {filename}: {e}")`. -/
def failMsg (filename e : String) : String :=
  "Failed to process " ++ filename ++ ": " ++ e

/-- Observable state of a run: rows written to the csv so far, diagnostics
printed so far, and the uncaught exception if the run aborted. -/
structure RunState where
  rows : List Row
  diags : List String
  fatal : Option String
deriving Repr

/-- One iteration of the main loop for a directory entry `filename`.  When a
previous iteration aborted the run the state passes through unchanged.
Skips filenames not ending in `.json`; an `ioError` from `open` is uncaught
and fatal; `badJson` and any exception inside `processDoc` are caught and
reported; otherwise the document is filtered or its row appended. -/
def step (sys : Sys) (st : RunState) (filename : String) : RunState :=
  match st.fatal with
  | some _ => st
  | none =>
    if pyEndsWith filename ".json" then
      match sys.openFile (os_path_join METADATA_DIR filename) with
      | .ioError e => ⟨st.rows, st.diags, some e⟩
      | .badJson e => ⟨st.rows, st.diags ++ [failMsg filename e], none⟩
      | .json data =>
        match processDoc sys.pathExists data with
        | .error e => ⟨st.rows, st.diags ++ [failMsg filename e], none⟩
        | .ok none => st
        | .ok (some r) => ⟨st.rows ++ [r], st.diags, none⟩
    else st

/-- The whole script: `os.makedirs`, open the output csv, `os.listdir`, then
the main loop over the listing.  A failure of any of the three setup calls
is fatal before any row is produced. -/
def run (sys : Sys) : RunState :=
  match sys.makedirs with
  | .error e => ⟨[], [], some e⟩
  | .ok _ =>
    match sys.openOutput with
    | .error e => ⟨[], [], some e⟩
    | .ok _ =>
      match sys.listdir with
      | .error e => ⟨[], [], some e⟩
      | .ok listing => listing.foldl (step sys) ⟨[], [], none⟩

/-- The header row `writer.writeheader()` emits. -/
def headerRow : List String := ["product_id", "title", "description", "image_path"]

/-- How `csv.DictWriter.writerow` renders one record: each cell value passed
through `str()` (strings unchanged). -/
def renderRow (r : Row) : List String :=
  [pyStr r.product_id, pyStr r.title, pyStr r.description, r.image_path]

/-- Content of `products.csv` after the run, as a list of cell rows: `none`
when the file was never (re)created because a setup call before the header
write failed; otherwise the header followed by the accepted records in
processing order. -/
def outputTable (sys : Sys) : Option (List (List String)) :=
  match sys.makedirs with
  | .error _ => none
  | .ok _ =>
    match sys.openOutput with
    | .error _ => none
    | .ok _ => some (headerRow :: (run sys).rows.map renderRow)

/-- Rows contributed to the csv by one directory entry, when its `open`
does not raise: empty for skipped, filtered, or failing documents, and a
single row for accepted ones. -/
def fileRows (sys : Sys) (filename : String) : List Row :=
  if pyEndsWith filename ".json" then
    match sys.openFile (os_path_join METADATA_DIR filename) with
    | .ioError _ => []
    | .badJson _ => []
    | .json data =>
      match processDoc sys.pathExists data with
      | .ok (some r) => [r]
      | _ => []
  else []

/-- Diagnostics printed for one directory entry, when its `open` does not
raise. -/
def fileDiags (sys : Sys) (filename : String) : List String :=
  if pyEndsWith filename ".json" then
    match sys.openFile (os_path_join METADATA_DIR filename) with
    | .ioError _ => []
    | .badJson e => [failMsg filename e]
    | .json data =>
      match processDoc sys.pathExists data with
      | .error e => [failMsg filename e]
      | .ok _ => []
  else []

/-- `open` on the metadata file of this directory entry does not raise (an
entry skipped by the extension check trivially qualifies). -/
def fileOpenOk (sys : Sys) (filename : String) : Bool :=
  if pyEndsWith filename ".json" then
    match sys.openFile (os_path_join METADATA_DIR filename) with
    | .ioError _ => false
    | _ => true
  else true

/-- Kind of a filesystem directory entry; `os.path.exists` does not
distinguish between them. -/
inductive EntryKind : Type where
  | file : EntryKind
  | dir : EntryKind
  | symlink : EntryKind
deriving Repr

/-- `os.path.exists` over an explicit table of filesystem entries: true
exactly when some entry of any kind sits at the path. -/
def os_path_exists (entries : List (String × EntryKind)) (p : String) : Bool :=
  entries.any (fun q => q.1 == p)

/-! ### Characterization of the main loop -/

lemma step_fatal (sys : Sys) (rows : List Row) (diags : List String)
    (e : String) (f : String) :
    step sys ⟨rows, diags, some e⟩ f = ⟨rows, diags, some e⟩ := rfl

lemma foldl_fatal (sys : Sys) (l : List String) (rows : List Row)
    (diags : List String) (e : String) :
    l.foldl (step sys) ⟨rows, diags, some e⟩ = ⟨rows, diags, some e⟩ := by
  induction l with
  | nil => rfl
  | cons f l ih => simpa [List.foldl_cons, step_fatal] using ih

lemma step_ok (sys : Sys) (rows : List Row) (diags : List String) (f : String)
    (hok : fileOpenOk sys f = true) :
    step sys ⟨rows, diags, none⟩ f =
      ⟨rows ++ fileRows sys f, diags ++ fileDiags sys f, none⟩ := by
  unfold fileOpenOk at hok
  unfold step fileRows fileDiags
  by_cases hj : pyEndsWith f ".json" = true
  · simp only [hj, if_true] at hok ⊢
    cases hof : sys.openFile (os_path_join METADATA_DIR f) with
    | ioError e => rw [hof] at hok; simp at hok
    | badJson e => simp
    | json data =>
      cases hpd : processDoc sys.pathExists data with
      | error e => simp [hpd]
      | ok o => cases o with
        | none => simp [hpd]
        | some r => simp [hpd]
  · simp only [Bool.not_eq_true] at hj
    simp [hj]

lemma foldl_ok (sys : Sys) (l : List String)
    (hok : ∀ f ∈ l, fileOpenOk sys f = true)
    (rows : List Row) (diags : List String) :
    l.foldl (step sys) ⟨rows, diags, none⟩ =
      ⟨rows ++ l.flatMap (fileRows sys), diags ++ l.flatMap (fileDiags sys), none⟩ := by
  induction l generalizing rows diags with
  | nil => simp
  | cons f l ih =>
    rw [List.foldl_cons, step_ok sys rows diags f (hok f (by simp)),
      ih (fun g hg => hok g (by simp [hg]))]
    simp

/-- Characterization of a run in which the three setup calls succeed and no
`open` of a listed metadata file raises: the rows and diagnostics are the
concatenation, in listing order, of each file's contribution. -/
lemma run_ok (sys : Sys) (listing : List String)
    (h1 : sys.makedirs = .ok ()) (h2 : sys.openOutput = .ok ())
    (h3 : sys.listdir = .ok listing)
    (hok : ∀ f ∈ listing, fileOpenOk sys f = true) :
    run sys = ⟨listing.flatMap (fileRows sys), listing.flatMap (fileDiags sys), none⟩ := by
  unfold run
  rw [h1, h2, h3]
  simpa using foldl_ok sys listing hok [] []

/-! ### Properties of the per-document processing -/

lemma dictGet_eq_of_find (fs : List (String × Json)) (k : String) (d v : Json)
    (h : dictFind fs k = some v) : dictGet fs k d = v := by
  unfold dictFind at h
  unfold dictGet
  cases hf : fs.find? (fun p => p.1 == k) with
  | none => rw [hf] at h; simp at h
  | some p => rw [hf] at h; simp at h; exact h

lemma dictGet_eq_default_of_absent (fs : List (String × Json)) (k : String) (d : Json)
    (h : dictFind fs k = none) : dictGet fs k d = d := by
  unfold dictFind at h
  unfold dictGet
  cases hf : fs.find? (fun p => p.1 == k) with
  | none => rfl
  | some p => rw [hf] at h; simp at h

lemma processDoc_obj (pe : String → Bool) (data : Json) (o : Option Row)
    (h : processDoc pe data = .ok o) : ∃ fields, data = Json.obj fields := by
  cases data <;> first
    | exact ⟨_, rfl⟩
    | simp [processDoc, pyGet] at h

lemma processDoc_ok_extract (pe : String → Bool) (fields : List (String × Json))
    (o : Option Row) (h : processDoc pe (.obj fields) = .ok o) :
    ∃ t d, extract_text_field (dictGet fields "item_name" (.arr [])) = .ok t ∧
      extract_text_field (dictGet fields "bullet_point" (.arr [])) = .ok d := by
  unfold processDoc at h
  simp only [pyGet] at h
  cases h1 : extract_text_field (dictGet fields "item_name" (.arr [])) with
  | error e => rw [h1] at h; simp at h
  | ok t =>
    rw [h1] at h
    cases h2 : extract_text_field (dictGet fields "bullet_point" (.arr [])) with
    | error e => rw [h2] at h; simp at h
    | ok d => exact ⟨t, d, rfl, rfl⟩

lemma processDoc_obj_eq (pe : String → Bool) (fields : List (String × Json)) (t d : Json)
    (ht : extract_text_field (dictGet fields "item_name" (.arr [])) = .ok t)
    (hd : extract_text_field (dictGet fields "bullet_point" (.arr [])) = .ok d) :
    processDoc pe (.obj fields) =
      if pe (os_path_join IMAGE_DIR (pyStr (dictGet fields "main_image_id" (.str "")) ++ ".jpg"))
      then .ok (some ⟨dictGet fields "item_id" (.str ""), t, d,
        os_path_join IMAGE_DIR (pyStr (dictGet fields "main_image_id" (.str "")) ++ ".jpg")⟩)
      else .ok none := by
  unfold processDoc
  simp only [pyGet, ht, hd]

lemma processDoc_image_exists (pe : String → Bool) (data : Json) (r : Row)
    (h : processDoc pe data = .ok (some r)) : pe r.image_path = true := by
  obtain ⟨fields, rfl⟩ := processDoc_obj pe data (some r) h
  obtain ⟨t, d, ht, hd⟩ := processDoc_ok_extract pe fields (some r) h
  rw [processDoc_obj_eq pe fields t d ht hd] at h
  by_cases hex :
      pe (os_path_join IMAGE_DIR (pyStr (dictGet fields "main_image_id" (.str "")) ++ ".jpg")) = true
  · rw [if_pos hex] at h
    cases h
    exact hex
  · rw [if_neg (by simpa using hex)] at h
    simp at h

lemma derivedImagePath_obj (fields : List (String × Json)) :
    derivedImagePath (.obj fields) =
      .ok (os_path_join IMAGE_DIR (pyStr (dictGet fields "main_image_id" (.str "")) ++ ".jpg")) := rfl

/-! ### Concrete sample documents and systems -/

/-- A well-formed document: the worked example of the spec. -/
def docGood : Json :=
  .obj [("item_id", .str "B001"),
        ("item_name", .arr [.obj [("value", .str "Widget"), ("language_tag", .str "en")]]),
        ("bullet_point", .arr []),
        ("main_image_id", .str "img1")]

/-- A well-formed document whose image file is missing. -/
def docNoImg : Json :=
  .obj [("item_id", .str "B002"),
        ("item_name", .arr [.obj [("value", .str "Gadget"), ("language_tag", .str "en")]]),
        ("bullet_point", .arr []),
        ("main_image_id", .str "img2")]

/-- The row the script writes for `docGood`. -/
def rowGood : Row :=
  ⟨.str "B001", .str "Widget", .str "", os_path_join IMAGE_DIR "img1.jpg"⟩

/-- A well-behaved sample system: one accepted document, one JSON parse
failure, one document filtered for lack of an image, one non-json entry.
Only `img1.jpg` exists in the image directory. -/
def sysA : Sys :=
  ⟨.ok (), .ok (), .ok ["good.json", "bad.json", "noimg.json", "readme.txt"],
   fun p =>
     if p = os_path_join METADATA_DIR "good.json" then .json docGood
     else if p = os_path_join METADATA_DIR "bad.json" then .badJson "Expecting value"
     else if p = os_path_join METADATA_DIR "noimg.json" then .json docNoImg
     else .ioError "FileNotFoundError",
   fun p => p == os_path_join IMAGE_DIR "img1.jpg"⟩

/-- A JSON document that parses but whose `item_name` list holds a bare
number, so that `field[0].get` raises inside the `try` block. -/
def docMalformed : Json :=
  .obj [("item_name", .arr [.num 1]), ("main_image_id", .str "img1")]

/-- Like `docMalformed` but referencing an image that does not exist. -/
def docMalformedNoImg : Json :=
  .obj [("item_name", .arr [.num 1]), ("main_image_id", .str "nope")]

/-- System in which opening `a.json` raises an I/O error while the later
`b.json` is perfectly valid and has its image on disk. -/
def sysC2 : Sys :=
  ⟨.ok (), .ok (), .ok ["a.json", "b.json"],
   fun p =>
     if p = os_path_join METADATA_DIR "b.json" then .json docNoImg
     else .ioError "PermissionError",
   fun p => p == os_path_join IMAGE_DIR "img2.jpg"⟩

/-- System with a single parsed document `docMalformed`; every path exists. -/
def sysC3 : Sys :=
  ⟨.ok (), .ok (), .ok ["doc.json"],
   fun _ => .json docMalformed,
   fun _ => true⟩

/-- System with a single parsed document `docMalformedNoImg`; no path
exists. -/
def sysC4 : Sys :=
  ⟨.ok (), .ok (), .ok ["doc.json"],
   fun _ => .json docMalformedNoImg,
   fun _ => false⟩

/-- System whose `os.makedirs` call fails. -/
def sysBadMk : Sys :=
  ⟨.error "OSError: makedirs", .ok (), .ok [], fun _ => .ioError "x", fun _ => false⟩

/-- System whose output-file `open` fails. -/
def sysBadOpen : Sys :=
  ⟨.ok (), .error "OSError: open output", .ok [], fun _ => .ioError "x", fun _ => false⟩

/-- System whose `os.listdir` fails. -/
def sysBadList : Sys :=
  ⟨.ok (), .ok (), .error "FileNotFoundError: listdir", fun _ => .ioError "x", fun _ => false⟩

/-! ### Claim C1 -/

/-- C1 counterexample: `extract_text_field` is not total as claimed.  On the
list `[1]` — a non-empty list whose first element is not an object — the
call `field[0].get("value", "")` raises `AttributeError` instead of
returning the empty string. -/
theorem C1_counterexample :
    extract_text_field (Json.arr [Json.num 1]) = .error "AttributeError" := rfl

/-- C1 (amended): `extract_text_field` returns the empty string on every
input that is not a non-empty list; on a non-empty list whose first element
is an object it returns that object's `value` entry (default empty string);
but on a non-empty list whose first element is not an object it raises
`AttributeError`. -/
theorem C1_extract_amended :
    (∀ field : Json, (∀ x xs, field ≠ Json.arr (x :: xs)) →
        extract_text_field field = .ok (.str "")) ∧
    (∀ (fs : List (String × Json)) (xs : List Json),
        extract_text_field (.arr (.obj fs :: xs)) = .ok (dictGet fs "value" (.str ""))) ∧
    (∀ (x : Json) (xs : List Json), (∀ fs, x ≠ Json.obj fs) →
        extract_text_field (.arr (x :: xs)) = .error "AttributeError") := by
  refine ⟨?_, ?_, ?_⟩
  · intro field hf
    cases field
    case arr l =>
      cases l with
      | nil => rfl
      | cons x xs => exact absurd rfl (hf x xs)
    all_goals rfl
  · intro fs xs
    rfl
  · intro x xs hx
    cases x
    case obj fs => exact absurd rfl (hx fs)
    all_goals rfl

/-- Witness for the amended C1, at concrete inputs of each of the three
kinds. -/
theorem C1_extract_amended_witness :
    extract_text_field (Json.num 3) = .ok (.str "") ∧
    extract_text_field (Json.arr [Json.obj [("value", Json.str "hello")]]) =
      .ok (Json.str "hello") ∧
    extract_text_field (Json.arr [Json.str "oops"]) = .error "AttributeError" :=
  ⟨C1_extract_amended.1 (Json.num 3) (fun _ _ h => Json.noConfusion h),
   C1_extract_amended.2.1 [("value", Json.str "hello")] [],
   C1_extract_amended.2.2 (Json.str "oops") [] (fun _ h => Json.noConfusion h)⟩

/-! ### Claim C2 -/

/-- C2 counterexample: a per-document I/O error is NOT recovered.  In
`sysC2`, opening `a.json` raises `PermissionError`; since `open(filepath)`
sits outside the `try` block the exception is uncaught: the run aborts with
no diagnostic, and the perfectly valid later file `b.json` — which on its
own would contribute a row — yields nothing. -/
theorem C2_counterexample :
    run sysC2 = ⟨[], [], some "PermissionError"⟩ ∧
    fileRows sysC2 "b.json" =
      [⟨.str "B002", .str "Gadget", .str "", os_path_join IMAGE_DIR "img2.jpg"⟩] ∧
    sysC2.pathExists (os_path_join IMAGE_DIR "img2.jpg") = true :=
  ⟨rfl, rfl, rfl⟩

/-- C2 (amended): failures raised after a metadata file has been opened —
malformed JSON from `json.load`, or any exception during processing — are
caught, reported by a diagnostic naming the file, the document is skipped,
and every other file's rows (before or after it in enumeration order) are
still emitted; an I/O error from `open` itself, however, is not caught. -/
theorem C2_amended (sys : Sys) (l1 l2 : List String) (f e : String)
    (h1 : sys.makedirs = .ok ()) (h2 : sys.openOutput = .ok ())
    (h3 : sys.listdir = .ok (l1 ++ f :: l2))
    (hok : ∀ g ∈ l1 ++ f :: l2, fileOpenOk sys g = true)
    (hf : pyEndsWith f ".json" = true)
    (hbad : sys.openFile (os_path_join METADATA_DIR f) = .badJson e) :
    run sys = ⟨(l1 ++ l2).flatMap (fileRows sys),
      l1.flatMap (fileDiags sys) ++ failMsg f e :: l2.flatMap (fileDiags sys), none⟩ ∧
    failMsg f e = "Failed to process " ++ f ++ ": " ++ e := by
  refine ⟨?_, rfl⟩
  rw [run_ok sys (l1 ++ f :: l2) h1 h2 h3 hok]
  have hrows : fileRows sys f = [] := by
    unfold fileRows
    rw [if_pos hf, hbad]
  have hdiags : fileDiags sys f = [failMsg f e] := by
    unfold fileDiags
    rw [if_pos hf, hbad]
  simp [List.flatMap_append, List.flatMap_cons, hrows, hdiags]

/-- Witness for the amended C2: in `sysA`, `bad.json` fails to parse between
`good.json` and `noimg.json`, its diagnostic is printed, and the rows of the
neighbouring files are unaffected. -/
theorem C2_amended_witness :
    run sysA = ⟨(["good.json"] ++ ["noimg.json", "readme.txt"]).flatMap (fileRows sysA),
      ["good.json"].flatMap (fileDiags sysA) ++
        failMsg "bad.json" "Expecting value" ::
          ["noimg.json", "readme.txt"].flatMap (fileDiags sysA), none⟩ ∧
    failMsg "bad.json" "Expecting value" =
      "Failed to process " ++ "bad.json" ++ ": " ++ "Expecting value" :=
  C2_amended sysA ["good.json"] ["noimg.json", "readme.txt"] "bad.json" "Expecting value"
    rfl rfl rfl
    (by
      intro g hg
      simp at hg
      rcases hg with rfl | rfl | rfl | rfl <;> rfl)
    rfl rfl

/-! ### Claim C3 -/

/-- C3 counterexample: a successfully parsed document whose derived image
path exists on disk but for which NO row is emitted.  In `sysC3` the single
file parses to `docMalformed`, whose derived image path exists (every path
does), yet field extraction raises `AttributeError` before the existence
check, so the run emits zero rows and one diagnostic. -/
theorem C3_counterexample :
    sysC3.openFile (os_path_join METADATA_DIR "doc.json") = .json docMalformed ∧
    derivedImagePath docMalformed = .ok (os_path_join IMAGE_DIR "img1.jpg") ∧
    sysC3.pathExists (os_path_join IMAGE_DIR "img1.jpg") = true ∧
    run sysC3 = ⟨[], [failMsg "doc.json" "AttributeError"], none⟩ :=
  ⟨rfl, rfl, rfl, rfl⟩

/-- C3 (amended): for every successfully parsed document whose processing
raises no exception and whose derived image path exists on disk, exactly
one row is emitted for that document, and its `image_path` field equals the
derived path. -/
theorem C3_amended (sys : Sys) (f : String) (data : Json) (p : String)
    (hf : pyEndsWith f ".json" = true)
    (hopen : sys.openFile (os_path_join METADATA_DIR f) = .json data)
    (hnoexc : ∃ o, processDoc sys.pathExists data = .ok o)
    (hp : derivedImagePath data = .ok p)
    (hex : sys.pathExists p = true) :
    ∃ row, fileRows sys f = [row] ∧ row.image_path = p := by
  obtain ⟨o, ho⟩ := hnoexc
  obtain ⟨fields, rfl⟩ := processDoc_obj sys.pathExists data o ho
  obtain ⟨t, d, ht, hd⟩ := processDoc_ok_extract sys.pathExists fields o ho
  rw [derivedImagePath_obj fields] at hp
  have hpp : os_path_join IMAGE_DIR
      (pyStr (dictGet fields "main_image_id" (.str "")) ++ ".jpg") = p := by
    exact Except.ok.inj hp
  have hpd := processDoc_obj_eq sys.pathExists fields t d ht hd
  rw [hpp, hex] at hpd
  simp only [if_true] at hpd
  refine ⟨⟨dictGet fields "item_id" (.str ""), t, d, p⟩, ?_, rfl⟩
  unfold fileRows
  rw [if_pos hf, hopen]
  simp only [hpd]

/-- Witness for the amended C3: in `sysA`, `good.json` processes cleanly,
its derived image path `img1.jpg` exists, and exactly one row is emitted
carrying that path. -/
theorem C3_amended_witness :
    ∃ row, fileRows sysA "good.json" = [row] ∧
      row.image_path = os_path_join IMAGE_DIR "img1.jpg" :=
  C3_amended sysA "good.json" docGood (os_path_join IMAGE_DIR "img1.jpg")
    rfl rfl ⟨some rowGood, rfl⟩ rfl rfl

/-! ### Claim C4 -/

/-- C4 counterexample: a document whose derived image path does not exist
for which a diagnostic IS reported.  In `sysC4` the single file parses to
`docMalformedNoImg`: its derived path `nope.jpg` does not exist (no path
does), no row is emitted — but the run still prints a diagnostic, because
field extraction raised before the existence check. -/
theorem C4_counterexample :
    sysC4.openFile (os_path_join METADATA_DIR "doc.json") = .json docMalformedNoImg ∧
    derivedImagePath docMalformedNoImg = .ok (os_path_join IMAGE_DIR "nope.jpg") ∧
    sysC4.pathExists (os_path_join IMAGE_DIR "nope.jpg") = false ∧
    run sysC4 = ⟨[], [failMsg "doc.json" "AttributeError"], none⟩ :=
  ⟨rfl, rfl, rfl, rfl⟩

/-- C4 (amended): for every document whose processing raises no exception
and whose derived image path does not exist on disk, the document is
discarded silently: no row is emitted for it and no diagnostic is
reported. -/
theorem C4_amended (sys : Sys) (f : String) (data : Json) (p : String)
    (hf : pyEndsWith f ".json" = true)
    (hopen : sys.openFile (os_path_join METADATA_DIR f) = .json data)
    (hnoexc : ∃ o, processDoc sys.pathExists data = .ok o)
    (hp : derivedImagePath data = .ok p)
    (hnex : sys.pathExists p = false) :
    fileRows sys f = [] ∧ fileDiags sys f = [] := by
  obtain ⟨o, ho⟩ := hnoexc
  obtain ⟨fields, rfl⟩ := processDoc_obj sys.pathExists data o ho
  obtain ⟨t, d, ht, hd⟩ := processDoc_ok_extract sys.pathExists fields o ho
  rw [derivedImagePath_obj fields] at hp
  have hpp : os_path_join IMAGE_DIR
      (pyStr (dictGet fields "main_image_id" (.str "")) ++ ".jpg") = p := by
    exact Except.ok.inj hp
  have hpd := processDoc_obj_eq sys.pathExists fields t d ht hd
  rw [hpp, hnex] at hpd
  simp only [Bool.false_eq_true, if_false] at hpd
  constructor
  · unfold fileRows
    rw [if_pos hf, hopen]
    simp only [hpd]
  · unfold fileDiags
    rw [if_pos hf, hopen]
    simp only [hpd]

/-- Witness for the amended C4: in `sysA`, `noimg.json` processes cleanly,
its derived image path `img2.jpg` is absent, and the file contributes
neither a row nor a diagnostic. -/
theorem C4_amended_witness :
    fileRows sysA "noimg.json" = [] ∧ fileDiags sysA "noimg.json" = [] :=
  C4_amended sysA "noimg.json" docNoImg (os_path_join IMAGE_DIR "img2.jpg")
    rfl rfl ⟨none, rfl⟩ rfl rfl

/-! ### Claim C5 -/

/-- C5: for every emitted document, `title` (resp. `description`) equals the
`value` entry of the FIRST element of `item_name` (resp. `bullet_point`)
when that list is non-empty — no locale selection — and equals the empty
string when the list is empty or the field is absent (absence makes
`data.get` return the default `[]`, so both cases show up as the empty
list). -/
theorem C5_first_value (pe : String → Bool) (fields : List (String × Json)) (row : Row)
    (h : processDoc pe (.obj fields) = .ok (some row)) :
    (∀ fs rest v, dictGet fields "item_name" (.arr []) = .arr (.obj fs :: rest) →
        dictFind fs "value" = some v → row.title = v) ∧
    (dictGet fields "item_name" (.arr []) = .arr [] → row.title = .str "") ∧
    (∀ fs rest v, dictGet fields "bullet_point" (.arr []) = .arr (.obj fs :: rest) →
        dictFind fs "value" = some v → row.description = v) ∧
    (dictGet fields "bullet_point" (.arr []) = .arr [] → row.description = .str "") := by
  obtain ⟨t, d, ht, hd⟩ := processDoc_ok_extract pe fields (some row) h
  rw [processDoc_obj_eq pe fields t d ht hd] at h
  by_cases hex :
      pe (os_path_join IMAGE_DIR (pyStr (dictGet fields "main_image_id" (.str "")) ++ ".jpg")) = true
  · rw [if_pos hex] at h
    have hrow := Option.some.inj (Except.ok.inj h)
    subst hrow
    refine ⟨?_, ?_, ?_, ?_⟩
    · intro fs rest v hfield hv
      rw [hfield] at ht
      have h2 : dictGet fs "value" (.str "") = t := Except.ok.inj ht
      exact h2.symm.trans (dictGet_eq_of_find fs "value" (.str "") v hv)
    · intro hfield
      rw [hfield] at ht
      exact (Except.ok.inj ht).symm
    · intro fs rest v hfield hv
      rw [hfield] at hd
      have h2 : dictGet fs "value" (.str "") = d := Except.ok.inj hd
      exact h2.symm.trans (dictGet_eq_of_find fs "value" (.str "") v hv)
    · intro hfield
      rw [hfield] at hd
      exact (Except.ok.inj hd).symm
  · rw [if_neg hex] at h
    simp at h

/-- Witness for C5 at the spec's worked example: `docGood` has a one-element
`item_name` whose `value` is `Widget` and an empty `bullet_point`, and the
emitted row carries title `Widget` and empty description. -/
theorem C5_first_value_witness :
    (∀ fs rest v,
        dictGet [("item_id", Json.str "B001"),
          ("item_name", .arr [.obj [("value", .str "Widget"), ("language_tag", .str "en")]]),
          ("bullet_point", Json.arr []), ("main_image_id", Json.str "img1")]
          "item_name" (.arr []) = .arr (.obj fs :: rest) →
        dictFind fs "value" = some v → rowGood.title = v) ∧
    (dictGet [("item_id", Json.str "B001"),
        ("item_name", .arr [.obj [("value", .str "Widget"), ("language_tag", .str "en")]]),
        ("bullet_point", Json.arr []), ("main_image_id", Json.str "img1")]
        "item_name" (.arr []) = .arr [] → rowGood.title = .str "") ∧
    (∀ fs rest v,
        dictGet [("item_id", Json.str "B001"),
          ("item_name", .arr [.obj [("value", .str "Widget"), ("language_tag", .str "en")]]),
          ("bullet_point", Json.arr []), ("main_image_id", Json.str "img1")]
          "bullet_point" (.arr []) = .arr (.obj fs :: rest) →
        dictFind fs "value" = some v → rowGood.description = v) ∧
    (dictGet [("item_id", Json.str "B001"),
        ("item_name", .arr [.obj [("value", .str "Widget"), ("language_tag", .str "en")]]),
        ("bullet_point", Json.arr []), ("main_image_id", Json.str "img1")]
        "bullet_point" (.arr []) = .arr [] → rowGood.description = .str "") :=
  C5_first_value sysA.pathExists
    [("item_id", Json.str "B001"),
     ("item_name", .arr [.obj [("value", .str "Widget"), ("language_tag", .str "en")]]),
     ("bullet_point", Json.arr []), ("main_image_id", Json.str "img1")]
    rowGood rfl

/-! ### Claim C6 -/

lemma step_rows_exist (sys : Sys) (st : RunState) (f : String)
    (hst : ∀ r ∈ st.rows, sys.pathExists r.image_path = true) :
    ∀ r ∈ (step sys st f).rows, sys.pathExists r.image_path = true := by
  intro r hr
  unfold step at hr
  cases hfat : st.fatal with
  | some e => rw [hfat] at hr; exact hst r hr
  | none =>
    rw [hfat] at hr
    by_cases hj : pyEndsWith f ".json" = true
    · simp only [hj, if_true] at hr
      cases hof : sys.openFile (os_path_join METADATA_DIR f) with
      | ioError e => simp only [hof] at hr; exact hst r hr
      | badJson e => simp only [hof] at hr; exact hst r hr
      | json data =>
        simp only [hof] at hr
        cases hpd : processDoc sys.pathExists data with
        | error e => simp only [hpd] at hr; exact hst r hr
        | ok o =>
          cases o with
          | none => simp only [hpd] at hr; exact hst r hr
          | some r0 =>
            simp only [hpd] at hr
            simp only [List.mem_append, List.mem_singleton] at hr
            rcases hr with hr | rfl
            · exact hst r hr
            · exact processDoc_image_exists sys.pathExists data _ hpd
    · simp only [Bool.not_eq_true] at hj
      simp only [hj] at hr
      exact hst r hr

lemma foldl_rows_exist (sys : Sys) (l : List String) (st : RunState)
    (hst : ∀ r ∈ st.rows, sys.pathExists r.image_path = true) :
    ∀ r ∈ (l.foldl (step sys) st).rows, sys.pathExists r.image_path = true := by
  induction l generalizing st with
  | nil => exact hst
  | cons f l ih => exact ih (step sys st f) (step_rows_exist sys st f hst)

/-- C6: run-wide invariant — every row present in the output corresponds to
a document whose derived image path existed when `os.path.exists` was
consulted; no row is ever written for a document that failed the existence
check.  This holds even for runs that abort midway. -/
theorem C6_invariant (sys : Sys) (r : Row) (hr : r ∈ (run sys).rows) :
    sys.pathExists r.image_path = true := by
  unfold run at hr
  cases h1 : sys.makedirs with
  | error e => rw [h1] at hr; simp at hr
  | ok u =>
    rw [h1] at hr
    cases h2 : sys.openOutput with
    | error e => rw [h2] at hr; simp at hr
    | ok v =>
      rw [h2] at hr
      cases h3 : sys.listdir with
      | error e => rw [h3] at hr; simp at hr
      | ok listing =>
        rw [h3] at hr
        exact foldl_rows_exist sys listing ⟨[], [], none⟩ (by simp) r hr

/-- Witness for C6: the one row `sysA` emits carries a path that exists. -/
theorem C6_invariant_witness : sysA.pathExists rowGood.image_path = true :=
  C6_invariant sysA rowGood (List.Mem.head _)

/-! ### Claim C7 -/

/-- C7: the pipeline is deterministic in its inputs — two runs over systems
that agree on the setup outcomes, the directory enumeration, every file's
content, and every path's existence produce identical row content (indeed
identical diagnostics and fatal status as well). -/
theorem C7_deterministic (s1 s2 : Sys)
    (h1 : s1.makedirs = s2.makedirs) (h2 : s1.openOutput = s2.openOutput)
    (h3 : s1.listdir = s2.listdir)
    (h4 : ∀ p, s1.openFile p = s2.openFile p)
    (h5 : ∀ p, s1.pathExists p = s2.pathExists p) :
    (run s1).rows = (run s2).rows ∧ run s1 = run s2 := by
  have hs : s1 = s2 := by
    cases s1
    cases s2
    simp only [Sys.mk.injEq]
    exact ⟨h1, h2, h3, funext h4, funext h5⟩
  rw [hs]
  exact ⟨rfl, rfl⟩

/-- Witness for C7, instantiated at `sysA` against itself. -/
theorem C7_deterministic_witness :
    (run sysA).rows = (run sysA).rows ∧ run sysA = run sysA :=
  C7_deterministic sysA sysA rfl rfl rfl (fun _ => rfl) (fun _ => rfl)

/-! ### Claim C8 -/

/-- C8: the output table is created fresh at the start of the run and, for
a run whose per-file opens succeed, holds exactly the fixed four-column
header `product_id, title, description, image_path` first, followed by one
rendered row per accepted record, in the order the documents were
processed (listing order). -/
theorem C8_output_table (sys : Sys) (listing : List String)
    (h1 : sys.makedirs = .ok ()) (h2 : sys.openOutput = .ok ())
    (h3 : sys.listdir = .ok listing)
    (hok : ∀ f ∈ listing, fileOpenOk sys f = true) :
    outputTable sys =
      some (["product_id", "title", "description", "image_path"] ::
        (listing.flatMap (fileRows sys)).map renderRow) := by
  unfold outputTable
  rw [h1, h2, run_ok sys listing h1 h2 h3 hok]
  rfl

/-- Witness for C8 at `sysA`: the header row followed by the single
accepted record. -/
theorem C8_output_table_witness :
    outputTable sysA =
      some (["product_id", "title", "description", "image_path"] ::
        ((["good.json", "bad.json", "noimg.json", "readme.txt"].flatMap
          (fileRows sysA)).map renderRow)) :=
  C8_output_table sysA ["good.json", "bad.json", "noimg.json", "readme.txt"]
    rfl rfl rfl
    (by
      intro g hg
      simp at hg
      rcases hg with rfl | rfl | rfl | rfl <;> rfl)

/-! ### Claim C9 -/

/-- C9: a failure of `os.makedirs`, of opening the output file, or of
`os.listdir` on the metadata directory aborts the run immediately: the
fatal field carries the exception, no rows are produced, and no diagnostic
is printed — the per-document handler never catches it. -/
theorem C9_setup_fatal :
    (∀ (sys : Sys) (e : String), sys.makedirs = .error e →
        run sys = ⟨[], [], some e⟩) ∧
    (∀ (sys : Sys) (e : String), sys.makedirs = .ok () → sys.openOutput = .error e →
        run sys = ⟨[], [], some e⟩) ∧
    (∀ (sys : Sys) (e : String), sys.makedirs = .ok () → sys.openOutput = .ok () →
        sys.listdir = .error e → run sys = ⟨[], [], some e⟩) := by
  refine ⟨?_, ?_, ?_⟩
  · intro sys e h1
    unfold run
    rw [h1]
  · intro sys e h1 h2
    unfold run
    rw [h1, h2]
  · intro sys e h1 h2 h3
    unfold run
    rw [h1, h2, h3]

/-- Witness for C9: the three setup failures, each on a concrete system. -/
theorem C9_setup_fatal_witness :
    run sysBadMk = ⟨[], [], some "OSError: makedirs"⟩ ∧
    run sysBadOpen = ⟨[], [], some "OSError: open output"⟩ ∧
    run sysBadList = ⟨[], [], some "FileNotFoundError: listdir"⟩ :=
  ⟨C9_setup_fatal.1 sysBadMk "OSError: makedirs" rfl,
   C9_setup_fatal.2.1 sysBadOpen "OSError: open output" rfl rfl,
   C9_setup_fatal.2.2 sysBadList "FileNotFoundError: listdir" rfl rfl rfl⟩

/-! ### Claim C10 -/

/-- C10: a document lacking `main_image_id` is not rejected up front: its
image id defaults to the empty string, the derived path degenerates to the
image directory joined with `.jpg`, and since `os.path.exists` accepts a
filesystem entry of any kind (a directory included), the document is
emitted with that degenerate `image_path` whenever any entry sits at it. -/
theorem C10_degenerate_image (fields : List (String × Json))
    (entries : List (String × EntryKind)) (t d : Json) (k : EntryKind)
    (habs : dictFind fields "main_image_id" = none)
    (ht : extract_text_field (dictGet fields "item_name" (.arr [])) = .ok t)
    (hd : extract_text_field (dictGet fields "bullet_point" (.arr [])) = .ok d)
    (hmem : (os_path_join IMAGE_DIR ".jpg", k) ∈ entries) :
    processDoc (os_path_exists entries) (.obj fields) =
      .ok (some ⟨dictGet fields "item_id" (.str ""), t, d, os_path_join IMAGE_DIR ".jpg"⟩) ∧
    os_path_join IMAGE_DIR ".jpg" = "../data/abo/abo-images-small/.jpg" := by
  refine ⟨?_, rfl⟩
  have hdeg : os_path_join IMAGE_DIR
      (pyStr (dictGet fields "main_image_id" (.str "")) ++ ".jpg") =
      os_path_join IMAGE_DIR ".jpg" := by
    rw [dictGet_eq_default_of_absent fields "main_image_id" (.str "") habs]
    rfl
  have hex : os_path_exists entries (os_path_join IMAGE_DIR ".jpg") = true := by
    unfold os_path_exists
    rw [List.any_eq_true]
    exact ⟨(os_path_join IMAGE_DIR ".jpg", k), hmem, by simp⟩
  rw [processDoc_obj_eq (os_path_exists entries) fields t d ht hd, hdeg, if_pos hex]

/-- Witness for C10: a document holding only an `item_id`, against a
filesystem whose only entry at the degenerate path is a DIRECTORY. -/
theorem C10_degenerate_image_witness :
    processDoc (os_path_exists [(os_path_join IMAGE_DIR ".jpg", EntryKind.dir)])
      (.obj [("item_id", Json.str "X")]) =
      .ok (some ⟨dictGet [("item_id", Json.str "X")] "item_id" (.str ""), .str "", .str "",
        os_path_join IMAGE_DIR ".jpg"⟩) ∧
    os_path_join IMAGE_DIR ".jpg" = "../data/abo/abo-images-small/.jpg" :=
  C10_degenerate_image [("item_id", Json.str "X")]
    [(os_path_join IMAGE_DIR ".jpg", EntryKind.dir)] (.str "") (.str "") EntryKind.dir
    rfl rfl rfl (List.Mem.head _)

end ABO
